import Mathlib

/-!
Shallow embedding of `jiff_to_excel` (src/src/lib.rs).

The crate converts Jiff civil `Date` / `Time` / `DateTime` values to Excel
serial datetimes (`f64`).  We model `f64` by `ℚ`: every value the date path
produces is an integer of magnitude below `2^53`, hence exactly representable
in `f64`, and the `+ 1.0` adjustment and the comparison with `59.0` are exact
there; on the time path the arithmetic is modelled as exact rational
arithmetic.  Machine integers (`i8`, `i16`, `i32` fields of the civil types,
the `i32` returned by `Span::get_days`) are modelled by `Int` together with
validity predicates matching the invariants jiff maintains; no value in the
program can overflow these widths.

The jiff library itself is an external dependency, so its operations are
modelled at the level of their documented semantics:
`Date - Date` yields a span whose only nonzero unit is the signed number of
calendar days between the dates (proleptic Gregorian);
`Time - Time` yields a span balanced into units from hours down to
nanoseconds; `Span::total(Unit::Millisecond)` fails exactly when the span
carries calendar units (which require a relative date) and otherwise returns
the exact total number of milliseconds, fractional part included.
A Rust panic (`unwrap` on `Err`) is modelled as `none`.
-/

namespace JiffToExcel

/-- Jiff civil `Date`: year, month, day (proleptic Gregorian). -/
structure Date where
  year : Int
  month : Int
  day : Int
deriving DecidableEq

/-- Jiff civil `Time`: hour, minute, second and sub-second nanoseconds. -/
structure Time where
  hour : Int
  minute : Int
  second : Int
  subsec_nanosecond : Int
deriving DecidableEq

/-- Jiff civil `DateTime`: a date paired with a time. -/
structure DateTime where
  date : Date
  time : Time
deriving DecidableEq

/-- Proleptic-Gregorian leap year rule. -/
def isLeapYear (y : Int) : Bool :=
  (y % 4 = 0 ∧ y % 100 ≠ 0) ∨ y % 400 = 0

/-- Number of days in a month of a given year. -/
def daysInMonth (y m : Int) : Int :=
  if m = 2 then (if isLeapYear y then 29 else 28)
  else if m = 4 ∨ m = 6 ∨ m = 9 ∨ m = 11 then 30
  else 31

/-- The invariants jiff maintains for a civil `Date`. -/
def ValidDate (d : Date) : Prop :=
  -9999 ≤ d.year ∧ d.year ≤ 9999 ∧
  1 ≤ d.month ∧ d.month ≤ 12 ∧
  1 ≤ d.day ∧ d.day ≤ daysInMonth d.year d.month

instance (d : Date) : Decidable (ValidDate d) := by
  unfold ValidDate
  infer_instance

/-- The invariants jiff maintains for a civil `Time`. -/
def ValidTime (t : Time) : Prop :=
  0 ≤ t.hour ∧ t.hour ≤ 23 ∧
  0 ≤ t.minute ∧ t.minute ≤ 59 ∧
  0 ≤ t.second ∧ t.second ≤ 59 ∧
  0 ≤ t.subsec_nanosecond ∧ t.subsec_nanosecond ≤ 999999999

instance (t : Time) : Decidable (ValidTime t) := by
  unfold ValidTime
  infer_instance

/-- Day number of a proleptic-Gregorian date, counted from 1970-01-01
(day 0), negative before it.  Standard civil-from-days arithmetic; this is
the day-count semantics underlying jiff's `Date` subtraction. -/
def daysFromCivil (y m d : Int) : Int :=
  let yAdj := if m ≤ 2 then y - 1 else y
  let era := yAdj / 400
  let yoe := yAdj - era * 400
  let mp := (m + 9) % 12
  let doy := (153 * mp + 2) / 5 + d - 1
  let doe := yoe * 365 + yoe / 4 - yoe / 100 + doy
  era * 146097 + doe - 719468

/-- Jiff `Span`: the ten unit fields a span carries. -/
structure Span where
  years : Int
  months : Int
  weeks : Int
  days : Int
  hours : Int
  minutes : Int
  seconds : Int
  milliseconds : Int
  microseconds : Int
  nanoseconds : Int
deriving DecidableEq

/-- Jiff library semantics: `Date - Date` returns the span between the two
dates with days as the largest (and only nonzero) unit. -/
def dateSub (d1 d2 : Date) : Span :=
  { years := 0, months := 0, weeks := 0,
    days := daysFromCivil d1.year d1.month d1.day -
            daysFromCivil d2.year d2.month d2.day,
    hours := 0, minutes := 0, seconds := 0,
    milliseconds := 0, microseconds := 0, nanoseconds := 0 }

/-- Jiff `Span::get_days`. -/
def Span.get_days (s : Span) : Int := s.days

/-- Nanoseconds since midnight of a civil time. -/
def nanosOfTime (t : Time) : Int :=
  ((t.hour * 60 + t.minute) * 60 + t.second) * 1000000000 + t.subsec_nanosecond

/-- Jiff library semantics: `Time - Time` returns the span between the two
times, balanced into units from hours down to nanoseconds. -/
def timeSub (t1 t2 : Time) : Span :=
  let n := nanosOfTime t1 - nanosOfTime t2
  { years := 0, months := 0, weeks := 0, days := 0,
    hours := n / 3600000000000,
    minutes := (n % 3600000000000) / 60000000000,
    seconds := (n % 60000000000) / 1000000000,
    milliseconds := (n % 1000000000) / 1000000,
    microseconds := (n % 1000000) / 1000,
    nanoseconds := n % 1000 }

/-- Error type for jiff's fallible span operations. -/
inductive JiffError where
  | missingRelativeDate
deriving DecidableEq

/-- Total nanoseconds represented by the invariant (time) units of a span. -/
def Span.invariantNanoseconds (s : Span) : Int :=
  s.hours * 3600000000000 + s.minutes * 60000000000 +
  s.seconds * 1000000000 + s.milliseconds * 1000000 +
  s.microseconds * 1000 + s.nanoseconds

/-- Jiff `Span::total(Unit::Millisecond)`: fails when the span carries
calendar units (those need a relative date); otherwise returns the exact
total number of milliseconds, fractional part included. -/
def Span.totalMilliseconds (s : Span) : Except JiffError ℚ :=
  if s.years ≠ 0 ∨ s.months ≠ 0 ∨ s.weeks ≠ 0 ∨ s.days ≠ 0 then
    Except.error JiffError.missingRelativeDate
  else
    Except.ok ((s.invariantNanoseconds : ℚ) / 1000000)

/-- `jiff_date_to_excel` from src/src/lib.rs: subtract the epoch
1899-12-31, take the day count as `f64`, and add one day for serial
numbers past the phantom 1900 leap day. -/
def jiff_date_to_excel (date : Date) : ℚ :=
  let epoch : Date := ⟨1899, 12, 31⟩
  let duration := dateSub date epoch
  let excel_date : ℚ := (duration.get_days : ℚ)
  if excel_date > 59 then excel_date + 1 else excel_date

/-- The final step of `jiff_time_to_excel`: `.unwrap()` on the span total
(panic, modelled as `none`, when the total failed) followed by the division
by the milliseconds in a day. -/
def excelFractionOfTotal : Except JiffError ℚ → Option ℚ
  | Except.ok ms => some (ms / (24 * 60 * 60 * 1000))
  | Except.error _ => none

/-- `jiff_time_to_excel` from src/src/lib.rs: span from midnight to the
time, total milliseconds (unwrapped), divided by the milliseconds in a
day. -/
def jiff_time_to_excel (time : Time) : Option ℚ :=
  let midnight : Time := ⟨0, 0, 0, 0⟩
  let duration := timeSub time midnight
  excelFractionOfTotal duration.totalMilliseconds

/-- `jiff_datetime_to_excel` from src/src/lib.rs: the date serial plus the
time fraction. -/
def jiff_datetime_to_excel (datetime : DateTime) : Option ℚ :=
  let date := jiff_date_to_excel datetime.date
  match jiff_time_to_excel datetime.time with
  | some time => some (date + time)
  | none => none

/-- Day number of the Excel epoch used by the crate. -/
def epochDayNumber : Int := daysFromCivil 1899 12 31

/-- Signed day count from the epoch 1899-12-31 to a date. -/
def dayCount (d : Date) : Int :=
  daysFromCivil d.year d.month d.day - epochDayNumber

/-- Written from the spec's words (§4.1): the serial is the signed day
count from the epoch, converted to floating point, plus exactly one when
the count exceeds 59. -/
def spec_date_serial (d : Date) : ℚ :=
  let days := dayCount d
  if days > 59 then (days : ℚ) + 1 else (days : ℚ)

/-- Strict calendar order on dates (year, then month, then day). -/
def dateBefore (d1 d2 : Date) : Prop :=
  d1.year < d2.year ∨
  (d1.year = d2.year ∧
    (d1.month < d2.month ∨ (d1.month = d2.month ∧ d1.day < d2.day)))

instance (d1 d2 : Date) : Decidable (dateBefore d1 d2) := by
  unfold dateBefore
  infer_instance

/-! ### Helper lemmas -/

lemma daysInMonth_le_31 (y m : Int) : daysInMonth y m ≤ 31 := by
  unfold daysInMonth
  split_ifs <;> omega

lemma timeSub_midnight_invariant (t : Time) :
    (timeSub t ⟨0, 0, 0, 0⟩).invariantNanoseconds = nanosOfTime t := by
  simp only [timeSub, Span.invariantNanoseconds, nanosOfTime]
  omega

lemma timeSub_midnight_total (t : Time) :
    (timeSub t ⟨0, 0, 0, 0⟩).totalMilliseconds =
      Except.ok ((nanosOfTime t : ℚ) / 1000000) := by
  have hcal : ¬((timeSub t ⟨0, 0, 0, 0⟩).years ≠ 0 ∨
      (timeSub t ⟨0, 0, 0, 0⟩).months ≠ 0 ∨
      (timeSub t ⟨0, 0, 0, 0⟩).weeks ≠ 0 ∨
      (timeSub t ⟨0, 0, 0, 0⟩).days ≠ 0) := by
    simp [timeSub]
  unfold Span.totalMilliseconds
  rw [if_neg hcal, timeSub_midnight_invariant]

lemma jiff_time_to_excel_eq (t : Time) :
    jiff_time_to_excel t = some ((nanosOfTime t : ℚ) / 86400000000000) := by
  simp only [jiff_time_to_excel]
  rw [timeSub_midnight_total]
  simp only [excelFractionOfTotal]
  congr 1
  rw [div_div]
  norm_num

lemma nanosOfTime_bounds (t : Time) (h : ValidTime t) :
    0 ≤ nanosOfTime t ∧ nanosOfTime t < 86400000000000 := by
  unfold ValidTime at h
  unfold nanosOfTime
  omega

lemma daysFromCivil_le_year_end (y m d : Int) (h1 : 1 ≤ m) (h2 : m ≤ 12)
    (h3 : 1 ≤ d) (h4 : d ≤ 31) :
    daysFromCivil y m d ≤ daysFromCivil y 12 31 := by
  simp only [daysFromCivil]
  norm_num
  split <;> omega

lemma daysFromCivil_year_end_lt_succ (y : Int) :
    daysFromCivil y 12 31 < daysFromCivil (y + 1) 12 31 := by
  simp only [daysFromCivil]
  norm_num
  omega

lemma daysFromCivil_year_end_strictMono :
    StrictMono (fun y : Int => daysFromCivil y 12 31) :=
  strictMono_int_of_lt_succ daysFromCivil_year_end_lt_succ

lemma daysFromCivil_1899_lt_epoch (m d : Int) (h1 : 1 ≤ m) (h2 : m ≤ 12)
    (h3 : 1 ≤ d) (h4 : d ≤ 31)
    (hlt : m < 12 ∨ (m = 12 ∧ d < 31)) :
    daysFromCivil 1899 m d < daysFromCivil 1899 12 31 := by
  simp only [daysFromCivil]
  norm_num
  split <;> omega

lemma dayCount_neg_of_before_epoch (d : Date) (hv : ValidDate d)
    (hb : dateBefore d ⟨1899, 12, 31⟩) : dayCount d < 0 := by
  obtain ⟨_, _, hm1, hm2, hd1, hd2⟩ := hv
  have hd31 : d.day ≤ 31 := le_trans hd2 (daysInMonth_le_31 d.year d.month)
  have hb2 : d.year < 1899 ∨
      (d.year = 1899 ∧ (d.month < 12 ∨ (d.month = 12 ∧ d.day < 31))) := by
    simpa [dateBefore] using hb
  have key : daysFromCivil d.year d.month d.day < daysFromCivil 1899 12 31 := by
    rcases hb2 with hy | ⟨hy, hmd⟩
    · calc daysFromCivil d.year d.month d.day
          ≤ daysFromCivil d.year 12 31 :=
            daysFromCivil_le_year_end d.year d.month d.day hm1 hm2 hd1 hd31
        _ ≤ daysFromCivil 1898 12 31 :=
            daysFromCivil_year_end_strictMono.monotone (by omega)
        _ < daysFromCivil 1899 12 31 := daysFromCivil_year_end_lt_succ 1898
    · rw [hy]
      exact daysFromCivil_1899_lt_epoch d.month d.day hm1 hm2 hd1 hd31
        (by omega)
  unfold dayCount epochDayNumber
  omega

lemma jiff_date_to_excel_unfolded (d : Date) :
    jiff_date_to_excel d =
      if (dayCount d : ℚ) > 59 then (dayCount d : ℚ) + 1 else (dayCount d : ℚ) := by
  simp only [jiff_date_to_excel, dateSub, Span.get_days, dayCount, epochDayNumber]

/-! ### Claim theorems -/

/-- Claim C1: for every civil date, `jiff_date_to_excel` returns the signed
number of days from the epoch 1899-12-31 to that date, converted to
floating point, and whenever that day count is strictly greater than 59 the
function adds exactly 1.0 to it; no other adjustment is applied.  Stated as
equality with `spec_date_serial`, the definition written from the spec's
words. -/
theorem date_to_excel_matches_spec (d : Date) :
    jiff_date_to_excel d = spec_date_serial d := by
  rw [jiff_date_to_excel_unfolded]
  simp only [spec_date_serial]
  by_cases h : dayCount d > 59
  · rw [if_pos h, if_pos (by exact_mod_cast h)]
  · rw [if_neg h, if_neg (by exact_mod_cast h)]

/-- Claim C3: `jiff_date_to_excel` maps the epoch 1899-12-31 to exactly 0.0
and 1900-01-01 to exactly 1.0. -/
theorem epoch_serial_values :
    jiff_date_to_excel ⟨1899, 12, 31⟩ = 0 ∧ jiff_date_to_excel ⟨1900, 1, 1⟩ = 1 := by
  rw [jiff_date_to_excel_unfolded, jiff_date_to_excel_unfolded]
  norm_num [dayCount, epochDayNumber, daysFromCivil]

/-- Claim C4, counterexample: the dates 59 days and 61 days after the epoch
1899-12-31 are 1900-02-28 and 1900-03-02, and their serial values are 59
and 62, which differ by exactly 3.0, not 2.0 as the claim states. -/
theorem serial_gap_59_to_61_days_is_three :
    dayCount ⟨1900, 2, 28⟩ = 59 ∧ dayCount ⟨1900, 3, 2⟩ = 61 ∧
    jiff_date_to_excel ⟨1900, 3, 2⟩ - jiff_date_to_excel ⟨1900, 2, 28⟩ = 3 := by
  refine ⟨by decide, by decide, ?_⟩
  rw [jiff_date_to_excel_unfolded, jiff_date_to_excel_unfolded]
  norm_num [dayCount, epochDayNumber, daysFromCivil]

/-- Claim C4, amended: the serial values for the dates 59 days and 60 days
after the epoch (1900-02-28 and 1900-03-01, the Excel serials 59 and 61)
differ by exactly 2.0, not 1.0, reflecting the inserted phantom 1900-02-29
day in the serial numbering. -/
theorem serial_gap_across_phantom_day_is_two :
    dayCount ⟨1900, 2, 28⟩ = 59 ∧ dayCount ⟨1900, 3, 1⟩ = 60 ∧
    jiff_date_to_excel ⟨1900, 3, 1⟩ - jiff_date_to_excel ⟨1900, 2, 28⟩ = 2 := by
  refine ⟨by decide, by decide, ?_⟩
  rw [jiff_date_to_excel_unfolded, jiff_date_to_excel_unfolded]
  norm_num [dayCount, epochDayNumber, daysFromCivil]

/-- Claim C10: for every valid civil date whose signed day count from
1899-12-31 is at most 59 — including every date strictly before the epoch —
`jiff_date_to_excel` returns exactly that signed day count, with no
leap-day adjustment; in particular dates before 1899-12-31 yield negative
serial values. -/
theorem pre_leap_serial_is_plain_day_count (d : Date) (hv : ValidDate d) :
    (dayCount d ≤ 59 → jiff_date_to_excel d = (dayCount d : ℚ)) ∧
    (dateBefore d ⟨1899, 12, 31⟩ → jiff_date_to_excel d < 0) := by
  constructor
  · intro h
    rw [jiff_date_to_excel_unfolded, if_neg]
    exact not_lt.mpr (by exact_mod_cast h)
  · intro hb
    have hneg : dayCount d < 0 := dayCount_neg_of_before_epoch d hv hb
    have h59 : dayCount d ≤ 59 := by omega
    rw [jiff_date_to_excel_unfolded, if_neg]
    · exact_mod_cast hneg
    · exact not_lt.mpr (by exact_mod_cast h59)

/-- Witness for C10 at the concrete date 1899-12-30, one day before the
epoch: its serial value is the plain day count -1, which is negative. -/
theorem pre_leap_serial_is_plain_day_count_witness :
    ValidDate ⟨1899, 12, 30⟩ ∧
    ((dayCount ⟨1899, 12, 30⟩ ≤ 59 →
      jiff_date_to_excel ⟨1899, 12, 30⟩ = (dayCount ⟨1899, 12, 30⟩ : ℚ)) ∧
     (dateBefore ⟨1899, 12, 30⟩ ⟨1899, 12, 31⟩ →
      jiff_date_to_excel ⟨1899, 12, 30⟩ < 0)) :=
  ⟨by decide, pre_leap_serial_is_plain_day_count ⟨1899, 12, 30⟩ (by decide)⟩

/-- Claim C2: for every civil datetime, `jiff_datetime_to_excel` is exactly
the sum of `jiff_date_to_excel` on the date component and
`jiff_time_to_excel` on the time component, with no further adjustment. -/
theorem datetime_is_date_plus_time (dt : DateTime) (x : ℚ)
    (h : jiff_time_to_excel dt.time = some x) :
    jiff_datetime_to_excel dt = some (jiff_date_to_excel dt.date + x) := by
  simp only [jiff_datetime_to_excel]
  rw [h]

/-- Witness for C2 at 2026-01-01 12:00, the crate's own doc example: the
time fraction is 1/2 and the datetime serial is 46023 + 1/2. -/
theorem datetime_is_date_plus_time_witness :
    jiff_time_to_excel ⟨12, 0, 0, 0⟩ = some (1 / 2) ∧
    jiff_datetime_to_excel ⟨⟨2026, 1, 1⟩, ⟨12, 0, 0, 0⟩⟩ =
      some (jiff_date_to_excel ⟨2026, 1, 1⟩ + 1 / 2) := by
  have h : jiff_time_to_excel ⟨12, 0, 0, 0⟩ = some (1 / 2) := by
    rw [jiff_time_to_excel_eq]
    norm_num [nanosOfTime]
  exact ⟨h, datetime_is_date_plus_time ⟨⟨2026, 1, 1⟩, ⟨12, 0, 0, 0⟩⟩ (1 / 2) h⟩

/-- Claim C5: for every valid civil time, `jiff_time_to_excel` returns a
value in the half-open range [0, 1); in particular midnight maps to
exactly 0. -/
theorem time_fraction_in_unit_range (t : Time) (h : ValidTime t) :
    (∃ x, jiff_time_to_excel t = some x ∧ 0 ≤ x ∧ x < 1) ∧
    jiff_time_to_excel ⟨0, 0, 0, 0⟩ = some 0 := by
  obtain ⟨hlo, hhi⟩ := nanosOfTime_bounds t h
  constructor
  · refine ⟨(nanosOfTime t : ℚ) / 86400000000000, jiff_time_to_excel_eq t, ?_, ?_⟩
    · apply div_nonneg _ (by norm_num)
      exact_mod_cast hlo
    · rw [div_lt_one (by norm_num)]
      exact_mod_cast hhi
  · rw [jiff_time_to_excel_eq]
    norm_num [nanosOfTime]

/-- Witness for C5 at noon: the returned fraction 1/2 lies in [0, 1). -/
theorem time_fraction_in_unit_range_witness :
    ValidTime ⟨12, 0, 0, 0⟩ ∧
    ((∃ x, jiff_time_to_excel ⟨12, 0, 0, 0⟩ = some x ∧ 0 ≤ x ∧ x < 1) ∧
     jiff_time_to_excel ⟨0, 0, 0, 0⟩ = some 0) :=
  ⟨by decide, time_fraction_in_unit_range ⟨12, 0, 0, 0⟩ (by decide)⟩

/-- Claim C6, counterexample: at the time 00:00:00.000500000 (half a
millisecond past midnight) the function returns 1/172800000, which is not
any whole number of milliseconds divided by 86400000: it differs from the
truncated candidate 0/86400000 and the rounded candidates 0/86400000 and
1/86400000, and multiplying it by 86400000 leaves the non-integer 1/2
(denominator 2).  Sub-millisecond components survive into the result. -/
theorem half_millisecond_time_breaks_ms_exactness :
    jiff_time_to_excel ⟨0, 0, 0, 500000⟩ = some (1 / 172800000) ∧
    (1 / 172800000 : ℚ) ≠ 0 / 86400000 ∧
    (1 / 172800000 : ℚ) ≠ 1 / 86400000 ∧
    ((1 / 172800000 : ℚ) * 86400000).den ≠ 1 := by
  refine ⟨?_, by norm_num, by norm_num, ?_⟩
  · rw [jiff_time_to_excel_eq]
    norm_num [nanosOfTime]
  · have h : (1 / 172800000 : ℚ) * 86400000 = ((1 : ℤ) : ℚ) / ((2 : ℤ) : ℚ) := by
      push_cast
      norm_num
    rw [h, Ne, Rat.den_div_intCast_eq_one_iff 1 2 (by norm_num)]
    decide

/-- Claim C6, amended: for every civil time the returned value equals the
elapsed nanoseconds since midnight divided by one million — the exact
number of milliseconds including any fractional sub-millisecond part —
divided by 86400000; sub-millisecond components are preserved, not
truncated or rounded away. -/
theorem time_fraction_exact_at_nanosecond (t : Time) :
    jiff_time_to_excel t = some ((nanosOfTime t : ℚ) / 1000000 / 86400000) := by
  rw [jiff_time_to_excel_eq, div_div]
  norm_num

/-- Claim C7: `jiff_time_to_excel` is injective on millisecond-aligned
times: two distinct valid times with zero sub-millisecond component map to
distinct serial values. -/
theorem time_to_excel_injective_on_ms_times (t1 t2 : Time)
    (h1 : ValidTime t1) (h2 : ValidTime t2)
    (ha1 : t1.subsec_nanosecond % 1000000 = 0)
    (ha2 : t2.subsec_nanosecond % 1000000 = 0)
    (hne : t1 ≠ t2) :
    jiff_time_to_excel t1 ≠ jiff_time_to_excel t2 := by
  rw [jiff_time_to_excel_eq, jiff_time_to_excel_eq]
  intro heq
  apply hne
  have hq : (nanosOfTime t1 : ℚ) / 86400000000000 =
      (nanosOfTime t2 : ℚ) / 86400000000000 := by
    exact Option.some.inj heq
  have hn : nanosOfTime t1 = nanosOfTime t2 := by
    field_simp at hq
    exact_mod_cast hq
  obtain ⟨a1, b1, c1, e1⟩ := t1
  obtain ⟨a2, b2, c2, e2⟩ := t2
  unfold ValidTime at h1 h2
  unfold nanosOfTime at hn
  simp only at h1 h2 hn
  have : a1 = a2 ∧ b1 = b2 ∧ c1 = c2 ∧ e1 = e2 := by omega
  obtain ⟨rfl, rfl, rfl, rfl⟩ := this
  rfl

/-- Witness for C7 at midnight and noon: distinct millisecond-aligned
times with distinct serial values. -/
theorem time_to_excel_injective_on_ms_times_witness :
    ValidTime ⟨0, 0, 0, 0⟩ ∧ ValidTime ⟨12, 0, 0, 0⟩ ∧
    jiff_time_to_excel ⟨0, 0, 0, 0⟩ ≠ jiff_time_to_excel ⟨12, 0, 0, 0⟩ :=
  ⟨by decide, by decide,
    time_to_excel_injective_on_ms_times ⟨0, 0, 0, 0⟩ ⟨12, 0, 0, 0⟩
      (by decide) (by decide) (by decide) (by decide) (by decide)⟩

/-- Claim C8: the final step of `jiff_time_to_excel` maps a failed span
total to `none` (the unwrap panic, which surfaces the failure rather than
producing any value) and a successful total to exactly the total divided by
the milliseconds in a day — a failure of the underlying conversion is
never turned into a silently incorrect value.  The last conjunct ties the
step to `jiff_time_to_excel` itself. -/
theorem failed_total_never_yields_value :
    (∀ e : JiffError, excelFractionOfTotal (Except.error e) = none) ∧
    (∀ ms : ℚ, excelFractionOfTotal (Except.ok ms) = some (ms / 86400000)) ∧
    (∀ t : Time, jiff_time_to_excel t =
      excelFractionOfTotal (timeSub t ⟨0, 0, 0, 0⟩).totalMilliseconds) := by
  refine ⟨fun e => rfl, fun ms => ?_, fun t => rfl⟩
  show some (ms / (24 * 60 * 60 * 1000)) = some (ms / 86400000)
  norm_num

/-- Claim C9: for every valid civil time the span total inside
`jiff_time_to_excel` succeeds, so the unwrap never panics and the function
always produces a value. -/
theorem time_total_never_fails (t : Time) (_h : ValidTime t) :
    (timeSub t ⟨0, 0, 0, 0⟩).totalMilliseconds =
      Except.ok ((nanosOfTime t : ℚ) / 1000000) ∧
    ∃ q, jiff_time_to_excel t = some q :=
  ⟨timeSub_midnight_total t, _, jiff_time_to_excel_eq t⟩

/-- Witness for C9 at noon. -/
theorem time_total_never_fails_witness :
    (timeSub ⟨12, 0, 0, 0⟩ ⟨0, 0, 0, 0⟩).totalMilliseconds =
      Except.ok ((nanosOfTime ⟨12, 0, 0, 0⟩ : ℚ) / 1000000) ∧
    ∃ q, jiff_time_to_excel ⟨12, 0, 0, 0⟩ = some q :=
  time_total_never_fails ⟨12, 0, 0, 0⟩ (by decide)

end JiffToExcel
